import Mathlib

/-!
Shallow embedding of the `videopipesink` GStreamer element from
`src/videopipesink/imp.rs` (rafaelcaricio/gst-subprocess-pipe).

The element pipes raw video frames to the stdin of a subprocess spawned
through `sh -c <cmd>`. We model the mutable state guarded by the two
mutexes (`Settings`, `State`), and the four lifecycle / data operations
`set_caps`, `start`, `stop`, `render` as pure functions. OS interaction
(spawn outcome, waitpid results, pipe write results, thread join results)
is passed in as explicit environment values, and observable side effects
(log lines, shutdown events, bytes delivered to the subprocess stdin)
are returned explicitly so that theorems can speak about them.
-/

namespace VideoPipe

/-- Log levels of the gst logging macros used by the element. -/
inductive LogLevel
  | error
  | warning
  | info
  | debug
  | trace
  deriving DecidableEq, Repr

/-- Exit status of a process: `code = some n` for a normal exit with code
`n`, `code = none` for termination by a signal (matching
`std::process::ExitStatus::code`). -/
structure ExitStatus where
  code : Option Int
  deriving DecidableEq, Repr

/-- Model of `std::process::Child` as held in `State.child_process`.
`stdin = some bytes` means the write side of the stdin pipe is open and
`bytes` is the stream of bytes delivered to the subprocess so far;
`stdin = none` means the handle was taken/dropped (stop does this).
`cachedStatus` models the status cache inside the standard library
`Child`: once `try_wait` (or `wait`) has reaped the child, the exit
status is stored and every later `try_wait` call returns it without
performing another OS `waitpid` query. -/
structure Child where
  pid : Nat
  stdin : Option (List Nat)
  cachedStatus : Option ExitStatus
  deriving DecidableEq, Repr

/-- The two background drain threads spawned by `start`. -/
inductive ThreadKind
  | stdoutDrain
  | stderrDrain
  deriving DecidableEq, Repr

/-- Model of a `thread::JoinHandle<()>` stored in the state. -/
structure ThreadHandle where
  kind : ThreadKind
  deriving DecidableEq, Repr

/-- Opaque stand-in for `gst_video::VideoInfo`; the element never reads
its fields, only its presence. -/
structure VideoInfo where
  width : Nat
  height : Nat
  deriving DecidableEq, Repr

/-- The `State` struct guarded by the state mutex. -/
structure State where
  child_process : Option Child
  video_info : Option VideoInfo
  cmd : String
  stdout_thread : Option ThreadHandle
  stderr_thread : Option ThreadHandle
  deriving DecidableEq, Repr

/-- `WAIT_FOR_EXIT_DEFAULT = gst::ClockTime::from_mseconds(100)`,
expressed in nanoseconds (ClockTime is a nanosecond count). -/
def WAIT_FOR_EXIT_DEFAULT : Nat := 100 * 1000000

/-- The `Settings` struct guarded by the settings mutex. -/
structure Settings where
  cmd : String
  wait_for_exit : Nat
  deriving DecidableEq, Repr

/-- `impl Default for Settings`. -/
def Settings.default : Settings :=
  { cmd := "", wait_for_exit := WAIT_FOR_EXIT_DEFAULT }

/-- The whole element: both mutex-guarded structs. -/
structure VideoPipeSink where
  settings : Settings
  state : State
  deriving DecidableEq, Repr

/-- `impl Default for VideoPipeSink`: a freshly constructed element. -/
def VideoPipeSink.default : VideoPipeSink :=
  { settings := Settings.default,
    state := { child_process := none, video_info := none, cmd := "",
               stdout_thread := none, stderr_thread := none } }

/-- A GObject property value (only the two types the element uses). -/
inductive PropValue
  | str (s : String)
  | u64 (n : Nat)
  deriving DecidableEq, Repr

/-- `ObjectImpl::property`: reading a property by name. -/
def property (e : VideoPipeSink) (name : String) : Option PropValue :=
  if name = "cmd" then some (PropValue.str e.settings.cmd)
  else if name = "wait-for-exit" then some (PropValue.u64 e.settings.wait_for_exit)
  else none

/-- `ObjectImpl::set_property`: writing a property by name; `none` models
the panics (`expect` on a type mismatch, `unimplemented!` on an unknown
name). -/
def set_property (e : VideoPipeSink) (name : String) (v : PropValue) :
    Option VideoPipeSink :=
  if name = "cmd" then
    match v with
    | PropValue.str s => some { e with settings := { e.settings with cmd := s } }
    | PropValue.u64 _ => none
  else if name = "wait-for-exit" then
    match v with
    | PropValue.u64 n => some { e with settings := { e.settings with wait_for_exit := n } }
    | PropValue.str _ => none
  else none

/-- Caps as far as the element cares: either parseable into a
`VideoInfo` or not (`VideoInfo::from_caps`). -/
structure Caps where
  parse : Option VideoInfo
  deriving DecidableEq, Repr

/-- `BaseSinkImpl::set_caps`: `none` models the loggable error returned
when the caps cannot be parsed. -/
def set_caps (e : VideoPipeSink) (caps : Caps) : Option VideoPipeSink :=
  match caps.parse with
  | none => none
  | some info =>
      some { e with state := { e.state with video_info := some info } }

/-- Outcome of the OS `spawn` call in `start`. -/
inductive SpawnOutcome
  | ok (pid : Nat)
  | errSpawn (msg : String)
  deriving DecidableEq, Repr

/-- The OS-dependent inputs of one `start` call. -/
structure StartEnv where
  currentDirOk : Bool
  spawn : SpawnOutcome
  deriving DecidableEq, Repr

/-- The `gst::ErrorMessage` values `start` can produce. -/
inductive ErrorMessage
  | settingsError (msg : String)
  | resourceFailed (msg : String)
  deriving DecidableEq, Repr

/-- `BaseSinkImpl::start`: validate the command, get the working
directory, spawn `sh -c cmd` with all three stdio streams piped, spawn
the stdout and stderr drain threads, record everything in the state. -/
def start (e : VideoPipeSink) (env : StartEnv) :
    Except ErrorMessage VideoPipeSink :=
  if e.settings.cmd = "" then
    Except.error (ErrorMessage.settingsError "Command line not set")
  else if env.currentDirOk = false then
    Except.error (ErrorMessage.resourceFailed "Failed to get current directory")
  else
    match env.spawn with
    | SpawnOutcome.errSpawn m =>
        Except.error (ErrorMessage.resourceFailed ("Failed to start process: " ++ m))
    | SpawnOutcome.ok pid =>
        Except.ok { e with state :=
          { child_process := some { pid := pid, stdin := some [], cachedStatus := none },
            video_info := e.state.video_info,
            cmd := e.settings.cmd,
            stdout_thread := some { kind := ThreadKind.stdoutDrain },
            stderr_thread := some { kind := ThreadKind.stderrDrain } } }

/-- Behaviour of the stdout drain thread on the subprocess stdout lines:
each successfully decoded line (`some s`; `none` is a read/decode error,
skipped by the `if let Ok(line)`) is logged at debug level. -/
def stdoutDrainLogs (lines : List (Option String)) : List (LogLevel × String) :=
  lines.filterMap (fun l =>
    match l with
    | some s => some (LogLevel.debug, "stdout: " ++ s)
    | none => none)

/-- Behaviour of the stderr drain thread: each successfully decoded line
is logged at warning level. -/
def stderrDrainLogs (lines : List (Option String)) : List (LogLevel × String) :=
  lines.filterMap (fun l =>
    match l with
    | some s => some (LogLevel.warning, "stderr: " ++ s)
    | none => none)

/-- Observable step performed by `stop`, in order. -/
inductive StopEvent
  | closeStdin
  | sleep (ns : Nat)
  | sendSignal (sig : Nat) (pid : Nat)
  | waitChild (pid : Nat)
  | joinThread (k : ThreadKind)
  deriving DecidableEq, Repr

/-- POSIX SIGHUP. -/
def SIGHUP : Nat := 1

/-- The OS-dependent inputs of one `stop` call: the result of
`child.wait()` and of each `JoinHandle::join()`. -/
structure StopEnv where
  waitResult : Except String ExitStatus
  stdoutJoin : Except String Unit
  stderrJoin : Except String Unit

/-- The outcome of `stop`: normally `Ok(())` together with the new state,
the ordered shutdown events and the log lines; `panicked` models the
`.unwrap()` on a failed thread join. -/
inductive StopResult
  | ok (e : VideoPipeSink) (events : List StopEvent) (logs : List (LogLevel × String))
  | panicked (events : List StopEvent) (logs : List (LogLevel × String))

/-- Events of a stop result (performed before any panic). -/
def StopResult.events : StopResult → List StopEvent
  | StopResult.ok _ ev _ => ev
  | StopResult.panicked ev _ => ev

/-- The element state returned by a stop call, `none` if it panicked. -/
def StopResult.elemOut : StopResult → Option VideoPipeSink
  | StopResult.ok e _ _ => some e
  | StopResult.panicked _ _ => none

/-- Log lines emitted by a stop call. -/
def StopResult.logLines : StopResult → List (LogLevel × String)
  | StopResult.ok _ _ lg => lg
  | StopResult.panicked _ lg => lg

/-- Log lines of the `child.wait()` step of `stop`: the exit status at
info level on success, a warning (never an error return) on failure. -/
def waitLogs (r : Except String ExitStatus) : List (LogLevel × String) :=
  match r with
  | Except.ok st =>
      match st.code with
      | some code => [(LogLevel.info, "Process exited with code " ++ toString code)]
      | none => [(LogLevel.info, "Process terminated by signal")]
  | Except.error err =>
      [(LogLevel.warning, "Failed to wait for child process: " ++ err)]

/-- `BaseSinkImpl::stop`: if a child is present, take it, drop its stdin
(EOF), sleep for `wait_for_exit`, send SIGHUP, block on `wait()` (an
error there is logged at warning level and otherwise ignored); then take
and join the stdout thread and the stderr thread (`join().unwrap()`
panics on a join error); finally clear `video_info` and return Ok. -/
def stop (e : VideoPipeSink) (env : StopEnv) : StopResult :=
  let s := e.state
  let childEvents : List StopEvent :=
    match s.child_process with
    | none => []
    | some child =>
        [StopEvent.closeStdin, StopEvent.sleep e.settings.wait_for_exit,
         StopEvent.sendSignal SIGHUP child.pid, StopEvent.waitChild child.pid]
  let childLogs : List (LogLevel × String) :=
    match s.child_process with
    | none => []
    | some _ => waitLogs env.waitResult
  let stdoutJoinEvents : List StopEvent :=
    match s.stdout_thread with
    | some t => [StopEvent.joinThread t.kind]
    | none => []
  let stdoutJoinPanics : Bool :=
    match s.stdout_thread, env.stdoutJoin with
    | some _, Except.error _ => true
    | _, _ => false
  if stdoutJoinPanics then
    StopResult.panicked (childEvents ++ stdoutJoinEvents) childLogs
  else
    let stderrJoinEvents : List StopEvent :=
      match s.stderr_thread with
      | some t => [StopEvent.joinThread t.kind]
      | none => []
    let stderrJoinPanics : Bool :=
      match s.stderr_thread, env.stderrJoin with
      | some _, Except.error _ => true
      | _, _ => false
    if stderrJoinPanics then
      StopResult.panicked (childEvents ++ stdoutJoinEvents ++ stderrJoinEvents) childLogs
    else
      StopResult.ok
        { e with state :=
          { s with child_process := none, stdout_thread := none,
                   stderr_thread := none, video_info := none } }
        (childEvents ++ stdoutJoinEvents ++ stderrJoinEvents)
        (childLogs ++ [(LogLevel.info, "Stopped")])

/-- What a non-blocking OS status query (`waitpid` with WNOHANG) would
report at the moment of a render call. -/
inductive OsStatus
  | running
  | exited (st : ExitStatus)
  | queryFailed (msg : String)
  deriving DecidableEq, Repr

/-- One OS-level `write` result on the stdin pipe: a partial write of
`n` bytes, an interruption (retried by `write_all`), or an I/O error. -/
inductive OsWrite
  | wrote (n : Nat)
  | interrupted
  | ioError
  deriving DecidableEq, Repr

/-- The OS-dependent inputs of one `render` call. -/
structure RenderEnv where
  osStatus : OsStatus
  mapReadable : Bool
  writes : List OsWrite
  flushOk : Bool
  deriving DecidableEq, Repr

/-- The `gst::FlowError` values `render` can produce. -/
inductive FlowError
  | notNegotiated
  | error
  deriving DecidableEq, Repr

/-- `std::io::Write::write_all` on the stdin pipe: loop issuing OS
writes, retrying after partial writes and interruptions, until the whole
buffer is written or an error occurs (a 0-byte write is the WriteZero
error). Returns the bytes actually delivered to the pipe and whether the
call succeeded. Recursion is on the list of OS write results. -/
def write_all : List Nat → List OsWrite → List Nat × Bool
  | [], _ => ([], true)
  | _ :: _, [] => ([], false)
  | b, OsWrite.wrote n :: rest =>
      if n = 0 then ([], false)
      else if b.length ≤ n then (b, true)
      else
        let r := write_all (List.drop n b) rest
        (List.take n b ++ r.1, r.2)
  | b, OsWrite.interrupted :: rest => write_all b rest
  | _, OsWrite.ioError :: _ => ([], false)

/-- Log lines of the unexpected-exit branch of `render`. -/
def exitLogs (pid : Nat) (st : ExitStatus) : List (LogLevel × String) :=
  (LogLevel.error, "Subprocess with PID " ++ toString pid ++ " exited unexpectedly") ::
  (match st.code with
   | some code => [(LogLevel.error, "Exit code: " ++ toString code)]
   | none => [(LogLevel.error, "Process terminated by signal")])

/-- Everything one `render` call produces: the flow result, the element
afterwards, the log lines, and whether an actual OS status query
(`waitpid`) was performed (false when `try_wait` answers from the cache
or is never reached). -/
structure RenderOut where
  res : Except FlowError Unit
  elem : VideoPipeSink
  logs : List (LogLevel × String)
  osQueried : Bool

/-- `BaseSinkImpl::render`: reject when no format is negotiated; reject
when no child process is present; `try_wait` the child (cache first,
then the OS) and treat an already-exited child as an unexpected
termination; otherwise map the buffer, `write_all` its bytes to the
child stdin and flush. -/
def render (e : VideoPipeSink) (buffer : List Nat) (env : RenderEnv) : RenderOut :=
  match e.state.video_info with
  | none =>
      { res := Except.error FlowError.notNegotiated, elem := e,
        logs := [(LogLevel.error, "Video info not set")], osQueried := false }
  | some _ =>
      match e.state.child_process with
      | none =>
          { res := Except.error FlowError.error, elem := e,
            logs := [(LogLevel.error, "Child process not started")], osQueried := false }
      | some c =>
          match c.cachedStatus with
          | some st =>
              { res := Except.error FlowError.error, elem := e,
                logs := exitLogs c.pid st, osQueried := false }
          | none =>
              match env.osStatus with
              | OsStatus.exited st =>
                  { res := Except.error FlowError.error,
                    elem := { e with state := { e.state with
                      child_process := some { c with cachedStatus := some st } } },
                    logs := exitLogs c.pid st, osQueried := true }
              | OsStatus.queryFailed m =>
                  { res := Except.error FlowError.error, elem := e,
                    logs := [(LogLevel.error, "Failed to check subprocess status: " ++ m)],
                    osQueried := true }
              | OsStatus.running =>
                  if env.mapReadable = false then
                    { res := Except.error FlowError.error, elem := e,
                      logs := [(LogLevel.error, "Failed to map buffer readable")],
                      osQueried := true }
                  else
                    match c.stdin with
                    | none =>
                        { res := Except.error FlowError.error, elem := e,
                          logs := [(LogLevel.error, "Child process stdin closed")],
                          osQueried := true }
                    | some got =>
                        let w := write_all buffer env.writes
                        let e2 : VideoPipeSink :=
                          { e with state := { e.state with
                            child_process := some { c with stdin := some (got ++ w.1) } } }
                        if w.2 = false then
                          { res := Except.error FlowError.error, elem := e2,
                            logs := [(LogLevel.error, "Failed to write to process stdin")],
                            osQueried := true }
                        else if env.flushOk = false then
                          { res := Except.error FlowError.error, elem := e2,
                            logs := [(LogLevel.error, "Failed to flush stdin")],
                            osQueried := true }
                        else
                          { res := Except.ok Unit.unit, elem := e2,
                            logs := [(LogLevel.trace,
                              "Wrote and flushed buffer of size " ++ toString buffer.length)],
                            osQueried := true }

/-- The byte stream the subprocess has received on its stdin so far. -/
def delivered (e : VideoPipeSink) : List Nat :=
  match e.state.child_process with
  | some c =>
      match c.stdin with
      | some b => b
      | none => []
  | none => []

/-- A sequence of render calls, stopping at the first failure; the Bool
says whether all calls succeeded. -/
def renderSeq (e : VideoPipeSink) : List (List Nat × RenderEnv) → VideoPipeSink × Bool
  | [] => (e, true)
  | (buf, env) :: rest =>
      let r := render e buf env
      match r.res with
      | Except.ok _ => renderSeq r.elem rest
      | Except.error _ => (r.elem, false)

/-- The fault configuration the spec calls `Faulted`: a child is still
recorded and its exit status has been cached by a liveness query. -/
def Faulted (e : VideoPipeSink) : Prop :=
  ∃ c st, e.state.child_process = some c ∧ c.cachedStatus = some st

/-- The spec idle configuration: no format, no process, no thread. -/
def IdleState (e : VideoPipeSink) : Prop :=
  e.state.video_info = none ∧ e.state.child_process = none ∧
    e.state.stdout_thread = none ∧ e.state.stderr_thread = none

/-- A successful `write_all` delivered exactly the requested bytes. -/
theorem write_all_complete (os : List OsWrite) (buf : List Nat)
    (h : (write_all buf os).2 = true) : (write_all buf os).1 = buf := by
  induction os generalizing buf with
  | nil =>
      cases buf with
      | nil => simp [write_all]
      | cons a l => exact absurd h (by simp [write_all])
  | cons w rest ih =>
      cases buf with
      | nil => simp [write_all]
      | cons a l =>
          cases w with
          | wrote n =>
              by_cases hn : n = 0
              · subst hn; exact absurd h (by simp [write_all])
              · by_cases hlen : l.length + 1 ≤ n
                · simp [write_all, hn, hlen]
                · have h2 : (write_all (List.drop n (a :: l)) rest).2 = true := by
                    simpa [write_all, hn, hlen] using h
                  have h1 := ih (List.drop n (a :: l)) h2
                  simp [write_all, hn, hlen, h1, List.take_append_drop]
          | interrupted =>
              have h2 : (write_all (a :: l) rest).2 = true := by
                simpa [write_all] using h
              simpa [write_all] using ih (a :: l) h2
          | ioError => exact absurd h (by simp [write_all])

/-- A successful render appends exactly the buffer to the bytes the
subprocess has received. -/
theorem render_ok_delivered (e : VideoPipeSink) (buf : List Nat) (env : RenderEnv)
    (h : (render e buf env).res = Except.ok Unit.unit) :
    delivered (render e buf env).elem = delivered e ++ buf := by
  obtain ⟨es, cp, vi, cmd, sot, ser⟩ := e
  cases vi with
  | none => simp [render] at h
  | some info =>
    cases cp with
    | none => simp [render] at h
    | some c =>
      obtain ⟨pid, stdin, cache⟩ := c
      cases cache with
      | some st => simp [render] at h
      | none =>
        cases hos : env.osStatus with
        | exited st => simp [render, hos] at h
        | queryFailed m => simp [render, hos] at h
        | running =>
          cases hmap : env.mapReadable with
          | false => simp [render, hos, hmap] at h
          | true =>
            cases stdin with
            | none => simp [render, hos, hmap] at h
            | some got =>
              cases hw : (write_all buf env.writes).2 with
              | false => simp [render, hos, hmap, hw] at h
              | true =>
                cases hf : env.flushOk with
                | false => simp [render, hos, hmap, hw, hf] at h
                | true =>
                  have hfull := write_all_complete env.writes buf hw
                  simp [render, delivered, hos, hmap, hw, hf, hfull]

/-- Render never touches the settings, the negotiated format, the thread
handles, the recorded command, or the presence of the child process. -/
theorem render_preserves_frame (e : VideoPipeSink) (buf : List Nat) (env : RenderEnv) :
    (render e buf env).elem.settings = e.settings ∧
    (render e buf env).elem.state.video_info = e.state.video_info ∧
    (render e buf env).elem.state.stdout_thread = e.state.stdout_thread ∧
    (render e buf env).elem.state.stderr_thread = e.state.stderr_thread ∧
    (render e buf env).elem.state.cmd = e.state.cmd ∧
    (render e buf env).elem.state.child_process.isSome = e.state.child_process.isSome := by
  obtain ⟨es, cp, vi, cmd, sot, ser⟩ := e
  cases vi with
  | none => simp [render]
  | some info =>
    cases cp with
    | none => simp [render]
    | some c =>
      obtain ⟨pid, stdin, cache⟩ := c
      cases cache with
      | some st => simp [render]
      | none =>
        cases hos : env.osStatus with
        | exited st => simp [render, hos]
        | queryFailed m => simp [render, hos]
        | running =>
          cases hmap : env.mapReadable with
          | false => simp [render, hos, hmap]
          | true =>
            cases stdin with
            | none => simp [render, hos, hmap]
            | some got =>
              cases hw : (write_all buf env.writes).2 with
              | false => simp [render, hos, hmap, hw]
              | true =>
                cases hf : env.flushOk with
                | false => simp [render, hos, hmap, hw, hf]
                | true => simp [render, hos, hmap, hw, hf]

/-- An all-successful render sequence of buffers of size `S` delivers
exactly `N * S` additional bytes to the subprocess. -/
theorem renderSeq_ok_length (S : Nat) (pairs : List (List Nat × RenderEnv))
    (e : VideoPipeSink) (h : (renderSeq e pairs).2 = true)
    (hS : ∀ p, p ∈ pairs → (Prod.fst p).length = S) :
    (delivered (renderSeq e pairs).1).length =
      (delivered e).length + pairs.length * S := by
  induction pairs generalizing e with
  | nil => simp [renderSeq]
  | cons p rest ih =>
      obtain ⟨buf, env⟩ := p
      cases hres : (render e buf env).res with
      | error err =>
          exfalso
          have hfalse : (renderSeq e ((buf, env) :: rest)).2 = false := by
            simp [renderSeq, hres]
          rw [hfalse] at h
          exact Bool.false_ne_true h
      | ok u =>
          cases u
          have hstep := render_ok_delivered e buf env hres
          have hseq : renderSeq e ((buf, env) :: rest) =
              renderSeq (render e buf env).elem rest := by
            simp [renderSeq, hres]
          rw [hseq] at h ⊢
          have hrest := ih (render e buf env).elem h
            (fun q hq => hS q (List.mem_cons_of_mem _ hq))
          rw [hrest, hstep]
          have hb : buf.length = S := hS (buf, env) (List.mem_cons_self _ _)
          rw [List.length_append, hb, List.length_cons]
          ring

/-- Render sequences also never touch the frame fields. -/
theorem renderSeq_preserves_frame (pairs : List (List Nat × RenderEnv))
    (e : VideoPipeSink) :
    (renderSeq e pairs).1.settings = e.settings ∧
    (renderSeq e pairs).1.state.stdout_thread = e.state.stdout_thread ∧
    (renderSeq e pairs).1.state.stderr_thread = e.state.stderr_thread ∧
    (renderSeq e pairs).1.state.child_process.isSome = e.state.child_process.isSome := by
  induction pairs generalizing e with
  | nil => simp [renderSeq]
  | cons p rest ih =>
      obtain ⟨buf, env⟩ := p
      have hframe := render_preserves_frame e buf env
      cases hres : (render e buf env).res with
      | error err =>
          simp only [renderSeq, hres]
          exact ⟨hframe.1, hframe.2.2.1, hframe.2.2.2.1, hframe.2.2.2.2.2⟩
      | ok u =>
          simp only [renderSeq, hres]
          have hrest := ih (render e buf env).elem
          exact ⟨hrest.1.trans hframe.1,
                 hrest.2.1.trans hframe.2.2.1,
                 hrest.2.2.1.trans hframe.2.2.2.1,
                 hrest.2.2.2.trans hframe.2.2.2.2.2⟩

/-- First render after the subprocess exit: the liveness query hits the
OS, the exit is recorded in the child status cache, the unexpected exit
is logged and the call fails with a fatal flow error. -/
theorem render_exit_detected (e : VideoPipeSink) (c : Child) (vi : VideoInfo)
    (st : ExitStatus) (buf : List Nat) (env : RenderEnv)
    (hvi : e.state.video_info = some vi)
    (hc : e.state.child_process = some c)
    (hcache : c.cachedStatus = none)
    (hexit : env.osStatus = OsStatus.exited st) :
    render e buf env =
      { res := Except.error FlowError.error,
        elem := { e with state := { e.state with
          child_process := some { c with cachedStatus := some st } } },
        logs := exitLogs c.pid st,
        osQueried := true } := by
  simp [render, hvi, hc, hcache, hexit]

/-- Renders against a child whose exit status is already cached fail
immediately with the same fatal error, change nothing and perform no OS
status query. -/
theorem render_cached_exit_fails_fast (e : VideoPipeSink) (c : Child) (vi : VideoInfo)
    (st : ExitStatus) (buf : List Nat) (env : RenderEnv)
    (hvi : e.state.video_info = some vi)
    (hc : e.state.child_process = some c)
    (hcache : c.cachedStatus = some st) :
    render e buf env =
      { res := Except.error FlowError.error, elem := e,
        logs := exitLogs c.pid st, osQueried := false } := by
  simp [render, hvi, hc, hcache]

/-- Full shutdown of a running cycle: exact event order and final state. -/
theorem stop_with_child_ok (e : VideoPipeSink) (env : StopEnv) (c : Child)
    (tOut tErr : ThreadHandle)
    (hc : e.state.child_process = some c)
    (ho : e.state.stdout_thread = some tOut)
    (he : e.state.stderr_thread = some tErr)
    (hjo : env.stdoutJoin = Except.ok Unit.unit)
    (hje : env.stderrJoin = Except.ok Unit.unit) :
    stop e env = StopResult.ok
      { e with state := { e.state with
          child_process := none, video_info := none,
          stdout_thread := none, stderr_thread := none } }
      [StopEvent.closeStdin, StopEvent.sleep e.settings.wait_for_exit,
       StopEvent.sendSignal SIGHUP c.pid, StopEvent.waitChild c.pid,
       StopEvent.joinThread tOut.kind, StopEvent.joinThread tErr.kind]
      (waitLogs env.waitResult ++ [(LogLevel.info, "Stopped")]) := by
  simp [stop, hc, ho, he, hjo, hje]

/-- Whenever both joins succeed, stop returns Ok and the resulting state
is the cleared one (fields other than the cleared four untouched). -/
theorem stop_ok_of_joins_ok (e : VideoPipeSink) (env : StopEnv)
    (hjo : env.stdoutJoin = Except.ok Unit.unit)
    (hje : env.stderrJoin = Except.ok Unit.unit) :
    (stop e env).elemOut =
      some { e with state := { e.state with
        child_process := none, video_info := none,
        stdout_thread := none, stderr_thread := none } } := by
  obtain ⟨es, cp, vi, cmd, sot, ser⟩ := e
  cases sot <;> cases ser <;> simp [stop, StopResult.elemOut, hjo, hje]

/-- A stop call on a state with no child performs no shutdown event and
only clears the format. -/
theorem stop_no_child (e : VideoPipeSink) (env : StopEnv)
    (hc : e.state.child_process = none)
    (ho : e.state.stdout_thread = none)
    (he : e.state.stderr_thread = none) :
    stop e env = StopResult.ok
      { e with state := { e.state with video_info := none } }
      [] [(LogLevel.info, "Stopped")] := by
  simp [stop, hc, ho, he]

/-- What a successful start produced: settings and format untouched, the
command snapshot recorded, a fresh child with open empty stdin, and the
two drain-thread handles. -/
theorem start_ok_spec (e : VideoPipeSink) (env : StartEnv) (e1 : VideoPipeSink)
    (h : start e env = Except.ok e1) :
    e1.settings = e.settings ∧
    e1.state.video_info = e.state.video_info ∧
    e1.state.stdout_thread = some { kind := ThreadKind.stdoutDrain } ∧
    e1.state.stderr_thread = some { kind := ThreadKind.stderrDrain } ∧
    e1.state.cmd = e.settings.cmd ∧
    ∃ pid, e1.state.child_process =
      some { pid := pid, stdin := some [], cachedStatus := none } := by
  unfold start at h
  by_cases hcmd : e.settings.cmd = ""
  · simp [hcmd] at h
  · cases hdir : env.currentDirOk with
    | false => simp [hcmd, hdir] at h
    | true =>
      cases hsp : env.spawn with
      | errSpawn m => simp [hcmd, hdir, hsp] at h
      | ok pid =>
          simp [hcmd, hdir, hsp] at h
          subst h
          exact ⟨rfl, rfl, rfl, rfl, rfl, pid, rfl⟩

/-- Every stdout drain log line is at debug level. -/
theorem stdoutDrainLogs_level (lines : List (Option String))
    (entry : LogLevel × String) (h : entry ∈ stdoutDrainLogs lines) :
    entry.1 = LogLevel.debug := by
  unfold stdoutDrainLogs at h
  rw [List.mem_filterMap] at h
  obtain ⟨l, _, hfl⟩ := h
  cases l with
  | none => exact absurd hfl (by simp)
  | some s =>
      simp only [Option.some.injEq] at hfl
      subst hfl
      rfl

/-- Every stderr drain log line is at warning level. -/
theorem stderrDrainLogs_level (lines : List (Option String))
    (entry : LogLevel × String) (h : entry ∈ stderrDrainLogs lines) :
    entry.1 = LogLevel.warning := by
  unfold stderrDrainLogs at h
  rw [List.mem_filterMap] at h
  obtain ⟨l, _, hfl⟩ := h
  cases l with
  | none => exact absurd hfl (by simp)
  | some s =>
      simp only [Option.some.injEq] at hfl
      subst hfl
      rfl

/-- A write or flush I/O error makes the render call fail with the fatal
flow error. -/
theorem render_write_error_fatal (e : VideoPipeSink) (c : Child) (vi : VideoInfo)
    (got buf : List Nat) (env : RenderEnv)
    (hvi : e.state.video_info = some vi)
    (hc : e.state.child_process = some c)
    (hcache : c.cachedStatus = none)
    (hstdin : c.stdin = some got)
    (hos : env.osStatus = OsStatus.running)
    (hmap : env.mapReadable = true)
    (herr : (write_all buf env.writes).2 = false ∨ env.flushOk = false) :
    (render e buf env).res = Except.error FlowError.error := by
  rcases herr with hw | hf
  · simp [render, hvi, hc, hcache, hstdin, hos, hmap, hw]
  · cases hw2 : (write_all buf env.writes).2 with
    | false => simp [render, hvi, hc, hcache, hstdin, hos, hmap, hw2]
    | true => simp [render, hvi, hc, hcache, hstdin, hos, hmap, hw2, hf]

/-- A concrete negotiated format used in witnesses. -/
def vi64 : VideoInfo := { width := 64, height := 64 }

/-- An element that has negotiated a format but has no running process. -/
def negotiatedElem : VideoPipeSink :=
  { settings := { cmd := "cat", wait_for_exit := WAIT_FOR_EXIT_DEFAULT },
    state := { child_process := none, video_info := some vi64, cmd := "",
               stdout_thread := none, stderr_thread := none } }

/-- A concrete freshly spawned child process. -/
def child42 : Child := { pid := 42, stdin := some [], cachedStatus := none }

/-- An element with a negotiated format and a running child. -/
def runningElem : VideoPipeSink :=
  { settings := { cmd := "cat", wait_for_exit := WAIT_FOR_EXIT_DEFAULT },
    state := { child_process := some child42, video_info := some vi64, cmd := "cat",
               stdout_thread := some { kind := ThreadKind.stdoutDrain },
               stderr_thread := some { kind := ThreadKind.stderrDrain } } }

/-- The element a successful start produces from `negotiatedElem`. -/
def startedElem : VideoPipeSink :=
  { settings := { cmd := "cat", wait_for_exit := WAIT_FOR_EXIT_DEFAULT },
    state := { child_process := some child42, video_info := some vi64, cmd := "cat",
               stdout_thread := some { kind := ThreadKind.stdoutDrain },
               stderr_thread := some { kind := ThreadKind.stderrDrain } } }

/-- A running element whose settings were never set (all defaults). -/
def defaultSettingsRunningElem : VideoPipeSink :=
  { settings := Settings.default, state := runningElem.state }

/-- An element whose configured command is empty. -/
def emptyCmdElem : VideoPipeSink :=
  { settings := { cmd := "", wait_for_exit := WAIT_FOR_EXIT_DEFAULT },
    state := { child_process := none, video_info := some vi64, cmd := "",
               stdout_thread := none, stderr_thread := none } }

/-- A start environment where the OS cooperates. -/
def startEnvOk : StartEnv :=
  { currentDirOk := true, spawn := SpawnOutcome.ok 42 }

/-- A stop environment where every OS interaction succeeds. -/
def stopEnvOk : StopEnv :=
  { waitResult := Except.ok { code := some 0 },
    stdoutJoin := Except.ok Unit.unit,
    stderrJoin := Except.ok Unit.unit }

/-- A stop environment whose stdout-thread join fails. -/
def stopEnvJoinFail : StopEnv :=
  { waitResult := Except.ok { code := some 0 },
    stdoutJoin := Except.error "thread join failed",
    stderrJoin := Except.ok Unit.unit }

/-- A stop environment whose OS-level reap fails. -/
def stopEnvWaitFail : StopEnv :=
  { waitResult := Except.error "No child processes",
    stdoutJoin := Except.ok Unit.unit,
    stderrJoin := Except.ok Unit.unit }

/-- A render environment: process running, whole buffer written at once. -/
def renderEnvOk : RenderEnv :=
  { osStatus := OsStatus.running, mapReadable := true,
    writes := [OsWrite.wrote 1000000], flushOk := true }

/-- A render environment where the OS performs partial writes and one
interruption before completing. -/
def renderEnvPartialWrites : RenderEnv :=
  { osStatus := OsStatus.running, mapReadable := true,
    writes := [OsWrite.wrote 1, OsWrite.interrupted, OsWrite.wrote 1, OsWrite.wrote 1],
    flushOk := true }

/-- A render environment whose flush fails. -/
def renderEnvFlushFail : RenderEnv :=
  { osStatus := OsStatus.running, mapReadable := true,
    writes := [OsWrite.wrote 1000000], flushOk := false }

/-- A render environment where the subprocess has already exited with
code 1. -/
def renderEnvExited : RenderEnv :=
  { osStatus := OsStatus.exited { code := some 1 }, mapReadable := true,
    writes := [OsWrite.wrote 1000000], flushOk := true }

/-- Claim C1: a render call made after the subprocess has exited detects
the exit through the liveness query, logs the exit code or signal,
returns a fatal flow error and leaves the state machine Faulted; every
subsequent render call returns the same fatal error immediately, without
re-querying the OS for the process status and without changing state. -/
theorem render_after_exit_faults_and_fails_fast
    (e : VideoPipeSink) (c : Child) (vi : VideoInfo) (st : ExitStatus)
    (buffer : List Nat) (env : RenderEnv)
    (hvi : e.state.video_info = some vi)
    (hc : e.state.child_process = some c)
    (hcache : c.cachedStatus = none)
    (hexit : env.osStatus = OsStatus.exited st) :
    (render e buffer env).res = Except.error FlowError.error ∧
    (render e buffer env).logs = exitLogs c.pid st ∧
    Faulted (render e buffer env).elem ∧
    ∀ buffer2 env2,
      (render (render e buffer env).elem buffer2 env2).res =
          Except.error FlowError.error ∧
      (render (render e buffer env).elem buffer2 env2).osQueried = false ∧
      (render (render e buffer env).elem buffer2 env2).elem =
        (render e buffer env).elem := by
  have h1 := render_exit_detected e c vi st buffer env hvi hc hcache hexit
  rw [h1]
  refine ⟨rfl, rfl, ⟨{ c with cachedStatus := some st }, st, rfl, rfl⟩, ?_⟩
  intro buffer2 env2
  have h2 := render_cached_exit_fails_fast
    { e with state := { e.state with
        child_process := some { c with cachedStatus := some st } } }
    { c with cachedStatus := some st } vi st buffer2 env2 hvi rfl rfl
  rw [h2]
  exact ⟨rfl, rfl, rfl⟩

/-- Witness for C1: a concrete running element whose subprocess has just
exited with code 1. -/
theorem render_after_exit_faults_and_fails_fast_witness :
    runningElem.state.video_info = some vi64 ∧
    runningElem.state.child_process = some child42 ∧
    child42.cachedStatus = none ∧
    renderEnvExited.osStatus = OsStatus.exited { code := some 1 } ∧
    (render runningElem [7, 7] renderEnvExited).res = Except.error FlowError.error ∧
    Faulted (render runningElem [7, 7] renderEnvExited).elem :=
  have h := render_after_exit_faults_and_fails_fast runningElem child42 vi64
    { code := some 1 } [7, 7] renderEnvExited rfl rfl rfl rfl
  ⟨rfl, rfl, rfl, rfl, h.1, h.2.2.1⟩

/-- Claim C2: a successful render writes and flushes the whole payload
within the call (partial OS writes retried to completion by write_all),
so an all-successful sequence of N renders of S bytes each delivers
exactly N times S additional bytes in call order, and a write or flush
I/O error makes the render call return the fatal flow error. -/
theorem render_byte_delivery_exact :
    (∀ e buf env, (render e buf env).res = Except.ok Unit.unit →
      delivered (render e buf env).elem = delivered e ++ buf) ∧
    (∀ S pairs e, (renderSeq e pairs).2 = true →
      (∀ p, p ∈ pairs → (Prod.fst p).length = S) →
      (delivered (renderSeq e pairs).1).length =
        (delivered e).length + pairs.length * S) ∧
    (∀ e c vi got buf env, e.state.video_info = some vi →
      e.state.child_process = some c → c.cachedStatus = none →
      c.stdin = some got → env.osStatus = OsStatus.running →
      env.mapReadable = true →
      ((write_all buf env.writes).2 = false ∨ env.flushOk = false) →
      (render e buf env).res = Except.error FlowError.error) :=
  ⟨render_ok_delivered,
   fun S pairs e h hS => renderSeq_ok_length S pairs e h hS,
   fun e c vi got buf env hvi hc hcache hstdin hos hmap herr =>
     render_write_error_fatal e c vi got buf env hvi hc hcache hstdin hos hmap herr⟩

/-- Witness for C2: one render with retried partial writes delivers its
3 bytes; two successful renders of 3 bytes deliver 6 bytes; a flush
failure is fatal. -/
theorem render_byte_delivery_exact_witness :
    (render runningElem [1, 2, 3] renderEnvPartialWrites).res = Except.ok Unit.unit ∧
    delivered (render runningElem [1, 2, 3] renderEnvPartialWrites).elem =
      delivered runningElem ++ [1, 2, 3] ∧
    (delivered (renderSeq runningElem
        [([1, 2, 3], renderEnvOk), ([4, 5, 6], renderEnvOk)]).1).length =
      (delivered runningElem).length + 2 * 3 ∧
    (render runningElem [1, 2, 3] renderEnvFlushFail).res =
      Except.error FlowError.error :=
  have h := render_byte_delivery_exact
  ⟨rfl,
   h.1 runningElem [1, 2, 3] renderEnvPartialWrites rfl,
   h.2.1 3 [([1, 2, 3], renderEnvOk), ([4, 5, 6], renderEnvOk)] runningElem rfl
     (by decide),
   h.2.2 runningElem child42 vi64 [] [1, 2, 3] renderEnvFlushFail rfl rfl rfl rfl
     rfl rfl (Or.inr rfl)⟩

/-- Claim C3: with a process running, stop performs, in order: close
stdin, sleep for wait_for_exit, send SIGHUP, block on wait, join the
stdout drain thread, join the stderr drain thread, and ends Ok in the
cleared state (process and format gone); and a successful start followed
by any all-successful renders and a stop brings the element back to the
idle state with the configuration settings preserved. -/
theorem stop_shutdown_sequence_and_cycle_idle
    (e : VideoPipeSink) (env : StopEnv) (c : Child) (tOut tErr : ThreadHandle)
    (hc : e.state.child_process = some c)
    (ho : e.state.stdout_thread = some tOut)
    (he : e.state.stderr_thread = some tErr)
    (hjo : env.stdoutJoin = Except.ok Unit.unit)
    (hje : env.stderrJoin = Except.ok Unit.unit) :
    (stop e env = StopResult.ok
      { e with state := { e.state with
          child_process := none, video_info := none,
          stdout_thread := none, stderr_thread := none } }
      [StopEvent.closeStdin, StopEvent.sleep e.settings.wait_for_exit,
       StopEvent.sendSignal SIGHUP c.pid, StopEvent.waitChild c.pid,
       StopEvent.joinThread tOut.kind, StopEvent.joinThread tErr.kind]
      (waitLogs env.waitResult ++ [(LogLevel.info, "Stopped")])) ∧
    (∀ e0 senv e1 pairs, start e0 senv = Except.ok e1 →
      ∃ e2, (stop (renderSeq e1 pairs).1 env).elemOut = some e2 ∧
        IdleState e2 ∧ e2.settings = e0.settings) := by
  constructor
  · exact stop_with_child_ok e env c tOut tErr hc ho he hjo hje
  · intro e0 senv e1 pairs hstart
    obtain ⟨hset, _, _, _, _, _, _⟩ := start_ok_spec e0 senv e1 hstart
    have hframe := renderSeq_preserves_frame pairs e1
    have hstop := stop_ok_of_joins_ok (renderSeq e1 pairs).1 env hjo hje
    refine ⟨_, hstop, ⟨rfl, rfl, rfl, rfl⟩, ?_⟩
    exact hframe.1.trans hset

/-- Witness for C3: a concrete shutdown of the running element. -/
theorem stop_shutdown_sequence_and_cycle_idle_witness :
    runningElem.state.child_process = some child42 ∧
    stopEnvOk.stdoutJoin = Except.ok Unit.unit ∧
    (stop runningElem stopEnvOk).events =
      [StopEvent.closeStdin, StopEvent.sleep WAIT_FOR_EXIT_DEFAULT,
       StopEvent.sendSignal SIGHUP 42, StopEvent.waitChild 42,
       StopEvent.joinThread ThreadKind.stdoutDrain,
       StopEvent.joinThread ThreadKind.stderrDrain] :=
  have h := (stop_shutdown_sequence_and_cycle_idle runningElem stopEnvOk child42
    { kind := ThreadKind.stdoutDrain } { kind := ThreadKind.stderrDrain }
    rfl rfl rfl rfl rfl).1
  ⟨rfl, rfl, by rw [h]; rfl⟩

/-- Counterexample to C4 as stated: stopping with no process running does
have a side effect — it unconditionally clears the negotiated format. -/
theorem stop_idle_clears_format_cex :
    negotiatedElem.state.child_process = none ∧
    negotiatedElem.state.video_info = some vi64 ∧
    (stop negotiatedElem stopEnvOk).elemOut =
      some { negotiatedElem with state :=
        { negotiatedElem.state with video_info := none } } ∧
    ((stop negotiatedElem stopEnvOk).elemOut.map fun x => x.state.video_info) =
      some none :=
  ⟨rfl, rfl, rfl, rfl⟩

/-- Claim C4 (amended): calling stop when no process is running succeeds
(returns Ok) and performs no process or thread operation (no shutdown
event at all), but it is not entirely free of side effects: it
unconditionally clears the negotiated format; every other state field is
unchanged. -/
theorem stop_no_process_ok_only_clears_format
    (e : VideoPipeSink) (env : StopEnv)
    (hc : e.state.child_process = none)
    (ho : e.state.stdout_thread = none)
    (he : e.state.stderr_thread = none) :
    stop e env = StopResult.ok
      { e with state := { e.state with video_info := none } }
      [] [(LogLevel.info, "Stopped")] :=
  stop_no_child e env hc ho he

/-- Witness for the amended C4 on the concrete negotiated element. -/
theorem stop_no_process_ok_only_clears_format_witness :
    negotiatedElem.state.child_process = none ∧
    negotiatedElem.state.stdout_thread = none ∧
    stop negotiatedElem stopEnvOk = StopResult.ok
      { negotiatedElem with state :=
        { negotiatedElem.state with video_info := none } }
      [] [(LogLevel.info, "Stopped")] :=
  ⟨rfl, rfl, stop_no_process_ok_only_clears_format negotiatedElem stopEnvOk rfl rfl rfl⟩

/-- Claim C5: start with an empty configured command fails synchronously
with the settings error "Command line not set" and spawns nothing (in
this pure embedding an error return leaves the caller's state exactly as
it was), and after setting a non-empty command a later start with a
successful spawn succeeds. -/
theorem start_empty_cmd_fails_recoverable
    (e : VideoPipeSink) (env : StartEnv)
    (hcmd : e.settings.cmd = "") :
    start e env = Except.error (ErrorMessage.settingsError "Command line not set") ∧
    (∀ c2 env2 pid, c2 ≠ "" → env2.currentDirOk = true →
      env2.spawn = SpawnOutcome.ok pid →
      ∃ e2 e3, set_property e "cmd" (PropValue.str c2) = some e2 ∧
        start e2 env2 = Except.ok e3) := by
  constructor
  · simp [start, hcmd]
  · intro c2 env2 pid hc2 hdir hsp
    refine ⟨{ e with settings := { e.settings with cmd := c2 } },
      { settings := { e.settings with cmd := c2 },
        state := { child_process := some { pid := pid, stdin := some [], cachedStatus := none },
                   video_info := e.state.video_info, cmd := c2,
                   stdout_thread := some { kind := ThreadKind.stdoutDrain },
                   stderr_thread := some { kind := ThreadKind.stderrDrain } } },
      by simp [set_property], ?_⟩
    simp [start, hc2, hdir, hsp]

/-- Witness for C5 on an element with an empty command. -/
theorem start_empty_cmd_fails_recoverable_witness :
    emptyCmdElem.settings.cmd = "" ∧
    start emptyCmdElem startEnvOk =
      Except.error (ErrorMessage.settingsError "Command line not set") ∧
    ∃ e2 e3, set_property emptyCmdElem "cmd" (PropValue.str "cat") = some e2 ∧
      start e2 startEnvOk = Except.ok e3 :=
  have h := start_empty_cmd_fails_recoverable emptyCmdElem startEnvOk rfl
  ⟨rfl, h.1, h.2 "cat" startEnvOk 42 (by decide) rfl rfl⟩

/-- Claim C6: a render call made while no format is negotiated returns
the not-negotiated error before touching the process: the element is
unchanged, no OS status query happens, and no byte is delivered. -/
theorem render_without_negotiation_rejected
    (e : VideoPipeSink) (buf : List Nat) (env : RenderEnv)
    (h : e.state.video_info = none) :
    (render e buf env).res = Except.error FlowError.notNegotiated ∧
    (render e buf env).elem = e ∧
    (render e buf env).osQueried = false ∧
    delivered (render e buf env).elem = delivered e := by
  have heq : render e buf env =
      { res := Except.error FlowError.notNegotiated, elem := e,
        logs := [(LogLevel.error, "Video info not set")], osQueried := false } := by
    simp [render, h]
  rw [heq]
  exact ⟨rfl, rfl, rfl, rfl⟩

/-- Witness for C6 on a freshly constructed element. -/
theorem render_without_negotiation_rejected_witness :
    VideoPipeSink.default.state.video_info = none ∧
    (render VideoPipeSink.default [1] renderEnvOk).res =
      Except.error FlowError.notNegotiated :=
  ⟨rfl, (render_without_negotiation_rejected VideoPipeSink.default [1] renderEnvOk rfl).1⟩

/-- Counterexample to C7 as stated: a failing drain-thread join is not
logged at warning level and not swallowed — the join result is
unwrapped, so stop panics instead of returning success. -/
theorem stop_join_failure_panics_cex :
    (stop runningElem stopEnvJoinFail).elemOut = none ∧
    stop runningElem stopEnvJoinFail = StopResult.panicked
      [StopEvent.closeStdin, StopEvent.sleep WAIT_FOR_EXIT_DEFAULT,
       StopEvent.sendSignal SIGHUP 42, StopEvent.waitChild 42,
       StopEvent.joinThread ThreadKind.stdoutDrain]
      [(LogLevel.info, "Process exited with code 0")] :=
  ⟨rfl, rfl⟩

/-- Claim C7 (amended): stop returns success for every outcome of the
OS-level reap — a wait failure is logged at warning level and never
surfaced; but an anomalous drain-thread join is not handled: it panics
(it can only arise from a drain-thread panic, not from the OS). -/
theorem stop_wait_failures_logged_never_escalated
    (e : VideoPipeSink) (env : StopEnv)
    (hjo : env.stdoutJoin = Except.ok Unit.unit)
    (hje : env.stderrJoin = Except.ok Unit.unit) :
    (∃ e2, (stop e env).elemOut = some e2) ∧
    (∀ c m, e.state.child_process = some c → env.waitResult = Except.error m →
      (LogLevel.warning, "Failed to wait for child process: " ++ m) ∈
        (stop e env).logLines) := by
  constructor
  · exact ⟨_, stop_ok_of_joins_ok e env hjo hje⟩
  · intro c m hc hw
    obtain ⟨es, cp, vi, cmd, sot, ser⟩ := e
    have hcp : cp = some c := hc
    subst hcp
    cases sot <;> cases ser <;>
      simp [stop, StopResult.logLines, hjo, hje, hw, waitLogs]

/-- Witness for the amended C7: a failing reap on the running element is
logged at warning level while stop still returns Ok. -/
theorem stop_wait_failures_logged_never_escalated_witness :
    stopEnvWaitFail.waitResult = Except.error "No child processes" ∧
    (∃ e2, (stop runningElem stopEnvWaitFail).elemOut = some e2) ∧
    (LogLevel.warning, "Failed to wait for child process: No child processes") ∈
      (stop runningElem stopEnvWaitFail).logLines :=
  have h := stop_wait_failures_logged_never_escalated runningElem stopEnvWaitFail rfl rfl
  ⟨rfl, h.1, h.2 child42 "No child processes" rfl rfl⟩

/-- Claim C8: the default of the wait-for-exit configuration is 100
milliseconds (100000000 nanoseconds): the constant, the Settings
default, the value read back from a fresh element, and the sleep
duration stop uses when the property was never set. -/
theorem wait_for_exit_default_100ms :
    WAIT_FOR_EXIT_DEFAULT = 100 * 1000000 ∧
    Settings.default.wait_for_exit = WAIT_FOR_EXIT_DEFAULT ∧
    property VideoPipeSink.default "wait-for-exit" =
      some (PropValue.u64 (100 * 1000000)) ∧
    StopEvent.sleep (100 * 1000000) ∈
      (stop defaultSettingsRunningElem stopEnvOk).events := by
  refine ⟨rfl, rfl, by decide, by decide⟩

/-- Claim C9: a successful start records exactly two drain-thread
handles, the stdout drain (logging each decoded line at debug level) and
the stderr drain (logging each decoded line at warning level), and a
stop whose joins succeed joins both threads and clears both handles. -/
theorem start_spawns_two_drains_joined_by_stop
    (e e1 : VideoPipeSink) (env : StartEnv)
    (h : start e env = Except.ok e1) :
    e1.state.stdout_thread = some { kind := ThreadKind.stdoutDrain } ∧
    e1.state.stderr_thread = some { kind := ThreadKind.stderrDrain } ∧
    (∀ lines entry, entry ∈ stdoutDrainLogs lines → entry.1 = LogLevel.debug) ∧
    (∀ lines entry, entry ∈ stderrDrainLogs lines → entry.1 = LogLevel.warning) ∧
    (∀ env2, env2.stdoutJoin = Except.ok Unit.unit →
      env2.stderrJoin = Except.ok Unit.unit →
      StopEvent.joinThread ThreadKind.stdoutDrain ∈ (stop e1 env2).events ∧
      StopEvent.joinThread ThreadKind.stderrDrain ∈ (stop e1 env2).events ∧
      ((stop e1 env2).elemOut.map fun x => x.state.stdout_thread) = some none ∧
      ((stop e1 env2).elemOut.map fun x => x.state.stderr_thread) = some none) := by
  obtain ⟨_, _, hot, het, _, pid, hcp⟩ := start_ok_spec e env e1 h
  refine ⟨hot, het, stdoutDrainLogs_level, stderrDrainLogs_level, ?_⟩
  intro env2 hjo hje
  have hstop := stop_with_child_ok e1 env2
    { pid := pid, stdin := some [], cachedStatus := none }
    { kind := ThreadKind.stdoutDrain } { kind := ThreadKind.stderrDrain }
    hcp hot het hjo hje
  rw [hstop]
  refine ⟨?_, ?_, rfl, rfl⟩
  · simp [StopResult.events]
  · simp [StopResult.events]

/-- Witness for C9: the concrete start from the negotiated element. -/
theorem start_spawns_two_drains_joined_by_stop_witness :
    start negotiatedElem startEnvOk = Except.ok startedElem ∧
    startedElem.state.stdout_thread = some { kind := ThreadKind.stdoutDrain } ∧
    startedElem.state.stderr_thread = some { kind := ThreadKind.stderrDrain } :=
  have h := start_spawns_two_drains_joined_by_stop negotiatedElem startedElem
    startEnvOk rfl
  ⟨rfl, h.1, h.2.1⟩

/-- Claim C10: a render call with a format negotiated but no child
process present returns the fatal flow error after logging "Child
process not started" and leaves the element unchanged. -/
theorem render_without_child_fatal_error
    (e : VideoPipeSink) (vi : VideoInfo) (buf : List Nat) (env : RenderEnv)
    (hvi : e.state.video_info = some vi)
    (hc : e.state.child_process = none) :
    (render e buf env).res = Except.error FlowError.error ∧
    (render e buf env).logs = [(LogLevel.error, "Child process not started")] ∧
    (render e buf env).elem = e ∧
    (render e buf env).osQueried = false := by
  have heq : render e buf env =
      { res := Except.error FlowError.error, elem := e,
        logs := [(LogLevel.error, "Child process not started")],
        osQueried := false } := by
    simp [render, hvi, hc]
  rw [heq]
  exact ⟨rfl, rfl, rfl, rfl⟩

/-- Witness for C10 on the negotiated element with no child. -/
theorem render_without_child_fatal_error_witness :
    negotiatedElem.state.video_info = some vi64 ∧
    negotiatedElem.state.child_process = none ∧
    (render negotiatedElem [9] renderEnvOk).res = Except.error FlowError.error :=
  ⟨rfl, rfl, (render_without_child_fatal_error negotiatedElem vi64 [9] renderEnvOk rfl rfl).1⟩

end VideoPipe
